import Mathlib

/-!
# Verification of the photos-api service (src/main.py)

A shallow embedding of the FastAPI/SQLAlchemy photo-metadata service.
Timestamps are modelled as natural numbers; each request is given a single
clock value `now` (in the source, every `datetime.utcnow` default fired
during one request reads the clock at that request).  The SQLite store is
a list of rows in insertion (rowid) order; SQLite assigns a fresh rowid of
`max existing id + 1`.  Fallible effects are explicit: `commitFails`
models a store/connectivity fault raised by `db.commit()`, and each
handler result records whether the session opened by the handler was
closed (`released`) before the handler returned or raised.
-/

/-- A committed row of the `photos` table (src/main.py, class Photo).
`name` and `url` are declared `nullable=False`; a committed row always
holds real strings, so they are `String` here (an attempted write of SQL
NULL into them is modelled as a failing commit in `update` below).
`width` and `height` are nullable integer columns. -/
structure Photo where
  id : Nat
  name : String
  url : String
  width : Option Int
  height : Option Int
  created_at : Nat
  updated_at : Nat
deriving DecidableEq, Repr

/-- The database: rows of the `photos` table in rowid (insertion) order. -/
abbrev Store := List Photo

/-- Largest id present in the store (0 when empty). -/
def maxIds : Store → Nat
  | [] => 0
  | p :: t => max p.id (maxIds t)

/-- The rowid SQLite assigns to a freshly inserted row: one more than the
largest existing id. -/
def nextId (s : Store) : Nat := maxIds s + 1

/-- `db.query(Photo).filter(Photo.id == id).first()` — the first row whose
id equals the (integer) path parameter. -/
def findPhoto (s : Store) (i : Int) : Option Photo :=
  s.find? (fun p => (p.id : Int) == i)

/-- The validated create payload (class PhotoCreate): `name` and `url`
required strings, `width`/`height` optional integers defaulting to None. -/
structure PhotoCreate where
  name : String
  url : String
  width : Option Int
  height : Option Int
deriving DecidableEq, Repr

/-- The raw JSON body of a POST /photos request, before pydantic
validation.  The outer `Option` on `name`/`url` is "field present with a
string value or not usable" (a missing field and an explicit JSON null are
both rejected by the `str` annotation, so both are `none`).  For
`width`/`height` the outer `Option` is presence and the inner one is JSON
null versus an integer. -/
structure RawCreate where
  name : Option String
  url : Option String
  width : Option (Option Int)
  height : Option (Option Int)
deriving DecidableEq, Repr

/-- Pydantic validation of PhotoCreate: succeeds iff `name` and `url` are
present; an absent or null `width`/`height` both collapse to None. -/
def decodeCreate (r : RawCreate) : Option PhotoCreate :=
  match r.name, r.url with
  | some n, some u => some ⟨n, u, r.width.bind id, r.height.bind id⟩
  | _, _ => none

/-- The PATCH /photos/{id} payload (class PhotoUpdate) as produced by
`model_dump(exclude_unset=True)`: for each field the outer `Option` is
"explicitly present in the request body", and the inner `Option` is an
explicit JSON null versus a value.  All four fields are optional. -/
structure PhotoUpdate where
  name : Option (Option String)
  url : Option (Option String)
  width : Option (Option Int)
  height : Option (Option Int)
deriving DecidableEq, Repr

/-- Value of the `name` column after the `setattr` loop: unchanged when the
field was not in the payload, otherwise the supplied value (possibly NULL). -/
def newName (p : Photo) (u : PhotoUpdate) : Option String :=
  match u.name with
  | none => some p.name
  | some x => x

/-- Value of the `url` column after the `setattr` loop. -/
def newUrl (p : Photo) (u : PhotoUpdate) : Option String :=
  match u.url with
  | none => some p.url
  | some x => x

/-- Value of the `width` column after the `setattr` loop. -/
def newWidth (p : Photo) (u : PhotoUpdate) : Option Int :=
  match u.width with
  | none => p.width
  | some x => x

/-- Value of the `height` column after the `setattr` loop. -/
def newHeight (p : Photo) (u : PhotoUpdate) : Option Int :=
  match u.height with
  | none => p.height
  | some x => x

/-- Whether the `setattr` loop gave some column a value different from the
one loaded from the database.  SQLAlchemy's flush compares each assigned
attribute with its committed value and emits an UPDATE statement only when
some column actually changed; the `onupdate=datetime.utcnow` hook on
`updated_at` fires only together with that UPDATE statement. -/
def updDiffers (p : Photo) (u : PhotoUpdate) : Bool :=
  (newName p u != some p.name) || (newUrl p u != some p.url) ||
    (newWidth p u != p.width) || (newHeight p u != p.height)

/-- Outcome of one HTTP request: status code, optional single-record body,
optional error detail string, the store after the request, and whether the
session the handler opened was closed before control left the handler. -/
structure Res where
  status : Nat
  body : Option Photo
  detail : Option String
  store : Store
  released : Bool
deriving DecidableEq, Repr

/-- POST /photos (src/main.py, `create`).  Pydantic rejects an invalid
body with 422 before the handler (and its session) is reached.  Otherwise
`Photo(**photo_data.model_dump())` is inserted; both timestamp column
defaults read the clock at the insert, giving `created_at = updated_at =
now`.  `db.commit()` may raise (`commitFails`); the exception propagates
before the `db.close()` line is reached. -/
def create (s : Store) (r : RawCreate) (now : Nat) (commitFails : Bool) : Res :=
  match decodeCreate r with
  | none => ⟨422, none, none, s, true⟩
  | some pd =>
    if commitFails then ⟨500, none, none, s, false⟩
    else
      let p : Photo := ⟨nextId s, pd.name, pd.url, pd.width, pd.height, now, now⟩
      ⟨201, some p, none, s ++ [p], true⟩

/-- GET /photos/{id} (src/main.py, `show`): the session is closed before
the not-found check, then 404 is raised or the record returned. -/
def show' (s : Store) (i : Int) : Res :=
  match findPhoto s i with
  | none => ⟨404, none, some "Photo not found", s, true⟩
  | some p => ⟨200, some p, none, s, true⟩

/-- PATCH /photos/{id} (src/main.py, `update`).  Not found: the session is
closed and 404 raised.  Otherwise the fields present in
`model_dump(exclude_unset=True)` are written onto the row; a NULL written
into the non-nullable `name` or `url` column makes the commit raise
(IntegrityError), as does a connectivity fault (`commitFails`), and in
both cases the exception propagates before `db.close()` is reached and the
store keeps its previous committed state.  On success `updated_at` is
refreshed by the `onupdate` hook exactly when an UPDATE statement was
emitted, i.e. when some column value actually changed. -/
def update (s : Store) (i : Int) (u : PhotoUpdate) (now : Nat) (commitFails : Bool) : Res :=
  match findPhoto s i with
  | none => ⟨404, none, some "Photo not found", s, true⟩
  | some p =>
    match newName p u, newUrl p u with
    | some n, some uu =>
      if commitFails then ⟨500, none, none, s, false⟩
      else
        let p' : Photo := ⟨p.id, n, uu, newWidth p u, newHeight p u, p.created_at,
          if updDiffers p u then now else p.updated_at⟩
        ⟨200, some p', none, s.map (fun q => if q.id == p.id then p' else q), true⟩
    | _, _ => ⟨500, none, none, s, false⟩

/-- GET /photos (src/main.py, `index`): all rows in stored order, paired
with the session-released flag (the session is always closed here). -/
def index (s : Store) : List Photo × Bool := (s, true)

/-- Placeholder URL used by both seed records. -/
def placeholderUrl : String := "https://via.placeholder.com/400X300"

/-- Bootstrap seeding (src/main.py, `seed_data`): when the store holds no
rows, insert the two sample photos (rowids 1 and 2 on the empty table);
otherwise do nothing. -/
def seed_data (s : Store) (now : Nat) : Store :=
  if s.length == 0 then
    let p1 : Photo := ⟨nextId s, "Mountain Lake", placeholderUrl, some 400, some 300, now, now⟩
    let s1 := s ++ [p1]
    let p2 : Photo := ⟨nextId s1, "City Skyline", placeholderUrl, some 400, some 300, now, now⟩
    s1 ++ [p2]
  else s

/-- Modelled from the spec: decimal-digit parsing of a path segment, the
numeric core of the `id: int` coercion performed by the routing layer. -/
def parseDigits (cs : List Char) : Option Nat :=
  if cs ≠ [] ∧ cs.all Char.isDigit then
    some (cs.foldl (fun n c => n * 10 + (c.toNat - 48)) 0)
  else none

/-- Modelled from the spec: the integer coercion FastAPI applies to the
`{id}` path segment declared as `id: int`: an optional leading minus sign
followed by decimal digits; anything else fails validation. -/
def parsePathInt (seg : String) : Option Int :=
  match seg.data with
  | '-' :: rest => (parseDigits rest).map (fun n => -(n : Int))
  | cs => (parseDigits cs).map (fun n => (n : Int))

/-- Modelled from the spec: the FastAPI routing layer for GET
/photos/{id} is not part of src/main.py (only the `id: int` annotation
is); per the spec's validation taxonomy, a path segment that does not
parse as an integer is rejected as a 422 validation error before the
handler runs, so the store is never touched. -/
def showRoute (s : Store) (seg : String) : Res :=
  match parsePathInt seg with
  | none => ⟨422, none, none, s, true⟩
  | some i => show' s i

/-- Modelled from the spec: the FastAPI routing layer for PATCH
/photos/{id}, as for `showRoute`. -/
def updateRoute (s : Store) (seg : String) (u : PhotoUpdate) (now : Nat)
    (commitFails : Bool) : Res :=
  match parsePathInt seg with
  | none => ⟨422, none, none, s, true⟩
  | some i => update s i u now commitFails

/-- Store states reachable through the public operations, indexed by the
current clock value: the empty store at time 0, clock advance, bootstrap
seeding, create and update (with any raw payload and any commit outcome). -/
inductive Reachable : Nat → Store → Prop
  | boot : Reachable 0 []
  | tick (t t' : Nat) (s : Store) : t ≤ t' → Reachable t s → Reachable t' s
  | seeded (t : Nat) (s : Store) : Reachable t s → Reachable t (seed_data s t)
  | created (t : Nat) (s : Store) (r : RawCreate) (cf : Bool) :
      Reachable t s → Reachable t (create s r t cf).store
  | updated (t : Nat) (s : Store) (i : Int) (u : PhotoUpdate) (cf : Bool) :
      Reachable t s → Reachable t (update s i u t cf).store

/-- All timestamps of all rows are bounded by `t` and every row has
`created_at ≤ updated_at`. -/
def timesOK (t : Nat) (s : Store) : Prop :=
  ∀ p ∈ s, p.created_at ≤ p.updated_at ∧ p.updated_at ≤ t ∧ p.created_at ≤ t

/-! ## Helper lemmas -/

theorem mem_le_maxIds {s : Store} {p : Photo} (hp : p ∈ s) : p.id ≤ maxIds s := by
  induction s with
  | nil => cases hp
  | cons q t ih =>
    rcases List.mem_cons.mp hp with h | h
    · subst h
      simp only [maxIds]
      exact le_max_left _ _
    · simp only [maxIds]
      exact le_trans (ih h) (le_max_right _ _)

theorem mem_id_ne_nextId {s : Store} {q : Photo} (hq : q ∈ s) : q.id ≠ nextId s := by
  intro h
  have hle := mem_le_maxIds hq
  rw [h] at hle
  exact Nat.not_succ_le_self _ hle

theorem findPhoto_not_in (s : Store) (p : Photo) (hid : p.id = nextId s) :
    findPhoto s (p.id : Int) = none := by
  unfold findPhoto
  rw [List.find?_eq_none]
  intro q hq hbeq
  have hqe : (q.id : Int) = (p.id : Int) := by
    exact_mod_cast of_decide_eq_true (by simpa using hbeq)
  have : q.id = p.id := by exact_mod_cast hqe
  exact mem_id_ne_nextId hq (this.trans hid)

theorem findPhoto_append_nextId (s : Store) (p : Photo) (hid : p.id = nextId s) :
    findPhoto (s ++ [p]) (p.id : Int) = some p := by
  unfold findPhoto
  rw [List.find?_append]
  have h1 := findPhoto_not_in s p hid
  unfold findPhoto at h1
  rw [h1]
  simp [List.find?]

theorem reachable_timesOK {t : Nat} {s : Store} (h : Reachable t s) : timesOK t s := by
  induction h with
  | boot => intro p hp; cases hp
  | tick t t' s hle hr ih =>
    intro p hp
    obtain ⟨h1, h2, h3⟩ := ih p hp
    exact ⟨h1, le_trans h2 hle, le_trans h3 hle⟩
  | seeded t s hr ih =>
    intro p hp
    by_cases hs : s = []
    · subst hs
      simp [seed_data] at hp
      rcases hp with h | h <;> subst h <;> exact ⟨le_refl _, le_refl _, le_refl _⟩
    · rw [seed_data, if_neg (by simpa using hs)] at hp
      exact ih p hp
  | created t s r cf hr ih =>
    intro p hp
    unfold create at hp
    rcases hd : decodeCreate r with _ | pd <;> simp only [hd] at hp
    · exact ih p hp
    · cases cf
      · simp at hp
        rcases hp with h | h
        · exact ih p h
        · subst h
          exact ⟨le_refl _, le_refl _, le_refl _⟩
      · simp at hp
        exact ih p hp
  | updated t s i u cf hr ih =>
    intro p hp
    unfold update at hp
    rcases hf : findPhoto s i with _ | p₀ <;> simp only [hf] at hp
    · exact ih p hp
    · have hp₀ : p₀ ∈ s := List.mem_of_find?_eq_some hf
      obtain ⟨hcu₀, hu₀, hc₀⟩ := ih p₀ hp₀
      rcases hn : newName p₀ u with _ | n <;> rcases hu : newUrl p₀ u with _ | v <;>
        simp only [hn, hu] at hp
      · exact ih p hp
      · exact ih p hp
      · exact ih p hp
      · cases cf
        · simp only [Bool.false_eq_true, if_false, Res.store] at hp
          rw [List.mem_map] at hp
          obtain ⟨q, hq, hpe⟩ := hp
          by_cases hid : (q.id == p₀.id) = true
          · rw [if_pos hid] at hpe
            subst hpe
            refine ⟨?_, ?_, hc₀⟩
            · by_cases hdiff : updDiffers p₀ u = true
              · simp only [hdiff, if_true]
                exact hc₀
              · simp only [if_neg hdiff]
                exact hcu₀
            · by_cases hdiff : updDiffers p₀ u = true
              · simp only [hdiff, if_true]
                exact le_refl _
              · simp only [if_neg hdiff]
                exact hu₀
          · rw [if_neg hid] at hpe
            subst hpe
            exact ih q hq
        · simp only [if_true, Res.store] at hp
          exact ih p hp

/-! ## Claim theorems -/

/-- C1 counterexample: the claim quantifies over every update payload, but a
PATCH with an empty payload on an existing record succeeds (status 200)
while leaving `updated_at` exactly as it was (5, not the clock value 10 and
not strictly greater than the prior 5): with no field assigned, SQLAlchemy
emits no UPDATE statement and the `onupdate` refresh of `updated_at`
never fires. -/
theorem C1_counterexample :
    (update [Photo.mk 1 "A" "u" none none 3 5] 1 ⟨none, none, none, none⟩ 10 false).status
      = 200 ∧
    (update [Photo.mk 1 "A" "u" none none 3 5] 1 ⟨none, none, none, none⟩ 10 false).body
      = some (Photo.mk 1 "A" "u" none none 3 5) :=
  ⟨rfl, rfl⟩

/-- C1 (amended): a successful update applies exactly the fields explicitly
present in the payload and leaves every omitted field (including
`created_at` and `id`) unchanged; `updated_at` is set to now whenever the
payload actually changed some field value (and is then strictly greater
than the prior `updated_at` provided the clock moved past it), and is left
unchanged when the payload changed nothing. -/
theorem C1_update_patch_semantics (s : Store) (i : Int) (u : PhotoUpdate) (now : Nat)
    (p p' : Photo) (hfind : findPhoto s i = some p)
    (hbody : (update s i u now false).body = some p') :
    p'.id = p.id ∧ p'.created_at = p.created_at ∧
    (u.name = none → p'.name = p.name) ∧
    (∀ v, u.name = some (some v) → p'.name = v) ∧
    (u.url = none → p'.url = p.url) ∧
    (∀ v, u.url = some (some v) → p'.url = v) ∧
    (u.width = none → p'.width = p.width) ∧
    (∀ w, u.width = some w → p'.width = w) ∧
    (u.height = none → p'.height = p.height) ∧
    (∀ w, u.height = some w → p'.height = w) ∧
    (updDiffers p u = true → p'.updated_at = now) ∧
    (updDiffers p u = true → p.updated_at < now → p.updated_at < p'.updated_at) ∧
    (updDiffers p u = false → p'.updated_at = p.updated_at) := by
  unfold update at hbody
  simp only [hfind] at hbody
  rcases hn : newName p u with _ | n <;> rcases hu : newUrl p u with _ | v <;>
    simp only [hn, hu, Bool.false_eq_true, if_false, Res.body] at hbody
  · exact absurd hbody (by simp)
  · exact absurd hbody (by simp)
  · exact absurd hbody (by simp)
  · have hp' : p' = ⟨p.id, n, v, newWidth p u, newHeight p u, p.created_at,
        if updDiffers p u then now else p.updated_at⟩ := by
      exact (Option.some.inj hbody).symm
    subst hp'
    refine ⟨rfl, rfl, ?_, ?_, ?_, ?_, ?_, ?_, ?_, ?_, ?_, ?_, ?_⟩
    · intro h
      simp only [newName, h] at hn
      exact (Option.some.inj hn).symm
    · intro w h
      simp only [newName, h] at hn
      exact (Option.some.inj hn).symm
    · intro h
      simp only [newUrl, h] at hu
      exact (Option.some.inj hu).symm
    · intro w h
      simp only [newUrl, h] at hu
      exact (Option.some.inj hu).symm
    · intro h
      simp only [newWidth, h]
    · intro w h
      simp only [newWidth, h]
    · intro h
      simp only [newHeight, h]
    · intro w h
      simp only [newHeight, h]
    · intro h
      simp only [h, if_true]
    · intro h hlt
      simp only [h, if_true]
      exact hlt
    · intro h
      simp only [h, Bool.false_eq_true, if_false]

/-- Witness for C1_update_patch_semantics: a concrete store with one record
and the payload setting only `width` to 99 at clock 10. -/
theorem C1_update_patch_semantics_witness :
    (Photo.mk 1 "A" "u" (some 99) none 3 10).created_at
      = (Photo.mk 1 "A" "u" none none 3 5).created_at ∧
    (Photo.mk 1 "A" "u" (some 99) none 3 10).width = some 99 :=
  ⟨(C1_update_patch_semantics [Photo.mk 1 "A" "u" none none 3 5] 1
      ⟨none, none, some (some 99), none⟩ 10 (Photo.mk 1 "A" "u" none none 3 5)
      (Photo.mk 1 "A" "u" (some 99) none 3 10) rfl rfl).2.1,
   (C1_update_patch_semantics [Photo.mk 1 "A" "u" none none 3 5] 1
      ⟨none, none, some (some 99), none⟩ 10 (Photo.mk 1 "A" "u" none none 3 5)
      (Photo.mk 1 "A" "u" (some 99) none 3 10) rfl rfl).2.2.2.2.2.2.2.1 (some 99) rfl⟩

/-- C2 counterexample: pydantic's `name: str` accepts the empty string, so
`create({name: "", url: "u"})` succeeds with 201 and reaches a store state
holding a record whose name is empty — refuting the non-empty-name part of
the claimed invariant. -/
theorem C2_counterexample :
    (create [] ⟨some "", some "u", none, none⟩ 0 false).status = 201 ∧
    Reachable 0 (create [] ⟨some "", some "u", none, none⟩ 0 false).store ∧
    (create [] ⟨some "", some "u", none, none⟩ 0 false).store.map Photo.name = [""] :=
  ⟨rfl, Reachable.created 0 [] ⟨some "", some "u", none, none⟩ false Reachable.boot, rfl⟩

/-- C2 (amended): in every reachable store state, every stored record has
`created_at ≤ updated_at`; `name` and `url` can never become null, because
an update payload carrying an explicit null for `name` or `url` makes the
commit fail and leaves the store unchanged (and create requires real
strings).  The name may however be empty: non-emptiness is not enforced. -/
theorem C2_store_invariants (t : Nat) (s : Store) (h : Reachable t s) :
    (∀ p ∈ s, p.created_at ≤ p.updated_at) ∧
    (∀ (i : Int) (u : PhotoUpdate) (now : Nat) (cf : Bool),
      u.name = some none ∨ u.url = some none →
        (update s i u now cf).store = s ∧ (update s i u now cf).status ≠ 200) := by
  constructor
  · intro p hp
    exact (reachable_timesOK h p hp).1
  · intro i u now cf hnull
    unfold update
    rcases hf : findPhoto s i with _ | p₀ <;> simp only [hf]
    · exact ⟨by trivial, by decide⟩
    · rcases hnull with hnm | hnu
      · have hn : newName p₀ u = none := by simp [newName, hnm]
        rcases hu : newUrl p₀ u with _ | v <;> simp only [hn, hu] <;>
          exact ⟨by trivial, by decide⟩
      · have hu : newUrl p₀ u = none := by simp [newUrl, hnu]
        rcases hn : newName p₀ u with _ | n <;> simp only [hn, hu] <;>
          exact ⟨by trivial, by decide⟩

/-- Witness for C2_store_invariants: the freshly seeded store at clock 0,
attacked with a null-name update at clock 5. -/
theorem C2_store_invariants_witness :
    (update (seed_data [] 0) 1 ⟨some none, none, none, none⟩ 5 false).store
      = seed_data [] 0 ∧
    (update (seed_data [] 0) 1 ⟨some none, none, none, none⟩ 5 false).status ≠ 200 :=
  (C2_store_invariants 0 (seed_data [] 0) (Reachable.seeded 0 [] Reachable.boot)).2 1
    ⟨some none, none, none, none⟩ 5 false (Or.inl rfl)

/-- C3: for every payload passing PhotoCreate validation, create (with a
healthy commit) returns 201 with a record whose id is positive and fresh
(distinct from every id already stored), whose `created_at` and
`updated_at` both equal now (hence are equal), and whose `name`, `url`,
`width` and `height` echo the submitted payload; the record is appended to
the store. -/
theorem C3_create_success (s : Store) (r : RawCreate) (now : Nat) (pd : PhotoCreate)
    (hdec : decodeCreate r = some pd) :
    (create s r now false).status = 201 ∧
    ∃ p, (create s r now false).body = some p ∧
      0 < p.id ∧ (∀ q ∈ s, q.id ≠ p.id) ∧
      p.created_at = now ∧ p.updated_at = now ∧ p.created_at = p.updated_at ∧
      p.name = pd.name ∧ p.url = pd.url ∧ p.width = pd.width ∧ p.height = pd.height ∧
      (create s r now false).store = s ++ [p] := by
  unfold create
  simp only [hdec, Bool.false_eq_true, if_false]
  refine ⟨by trivial, ⟨nextId s, pd.name, pd.url, pd.width, pd.height, now, now⟩,
    by trivial, Nat.succ_pos _, fun q hq => mem_id_ne_nextId hq,
    by trivial, by trivial, by trivial,
    by trivial, by trivial, by trivial,
    by trivial, by trivial⟩

/-- Witness for C3_create_success at a concrete payload. -/
theorem C3_create_success_witness :
    (create [] ⟨some "A", some "u", some (some 10), some (some 20)⟩ 7 false).status = 201 :=
  (C3_create_success [] ⟨some "A", some "u", some (some 10), some (some 20)⟩ 7
    ⟨"A", "u", some 10, some 20⟩ rfl).1

/-- C4: a create request whose body lacks `name` or lacks `url` is rejected
by pydantic with 422 before the handler body runs: nothing is returned, no
record is persisted, the store (and hence its record count) is unchanged,
and no session is left open (none was opened). -/
theorem C4_create_missing_required (s : Store) (r : RawCreate) (now : Nat) (cf : Bool)
    (h : r.name = none ∨ r.url = none) :
    (create s r now cf).status = 422 ∧ (create s r now cf).store = s ∧
    (create s r now cf).store.length = s.length ∧
    (create s r now cf).body = none ∧ (create s r now cf).released = true := by
  have hd : decodeCreate r = none := by
    unfold decodeCreate
    rcases h with h | h
    · rw [h]
    · rw [h]
      rcases hn : r.name with _ | n <;> rfl
  unfold create
  simp [hd]

/-- Witness for C4_create_missing_required: a body with `url` only. -/
theorem C4_create_missing_required_witness :
    (create [] ⟨none, some "u", none, none⟩ 0 false).status = 422 ∧
    (create [] ⟨none, some "u", none, none⟩ 0 false).store = [] ∧
    (create [] ⟨none, some "u", none, none⟩ 0 false).store.length = ([] : Store).length ∧
    (create [] ⟨none, some "u", none, none⟩ 0 false).body = none ∧
    (create [] ⟨none, some "u", none, none⟩ 0 false).released = true :=
  C4_create_missing_required [] ⟨none, some "u", none, none⟩ 0 false (Or.inl rfl)

/-- C5: when no stored record has the requested id, GET /photos/{id} and
PATCH /photos/{id} (with any payload and any commit outcome) both answer
404 with detail "Photo not found", return no record, and leave the store
exactly as it was. -/
theorem C5_not_found (s : Store) (i : Int) (u : PhotoUpdate) (now : Nat) (cf : Bool)
    (h : findPhoto s i = none) :
    (show' s i).status = 404 ∧ (show' s i).detail = some "Photo not found" ∧
    (show' s i).body = none ∧ (show' s i).store = s ∧
    (update s i u now cf).status = 404 ∧
    (update s i u now cf).detail = some "Photo not found" ∧
    (update s i u now cf).body = none ∧ (update s i u now cf).store = s := by
  unfold show' update
  simp only [h]
  exact ⟨by trivial, by trivial, by trivial, by trivial, by trivial, by trivial,
    by trivial, by trivial⟩

/-- Witness for C5_not_found: id 7 on the empty store. -/
theorem C5_not_found_witness :
    (show' [] 7).status = 404 ∧ (show' [] 7).detail = some "Photo not found" ∧
    (show' [] 7).body = none ∧ (show' [] 7).store = [] ∧
    (update [] 7 ⟨none, none, none, none⟩ 0 false).status = 404 ∧
    (update [] 7 ⟨none, none, none, none⟩ 0 false).detail = some "Photo not found" ∧
    (update [] 7 ⟨none, none, none, none⟩ 0 false).body = none ∧
    (update [] 7 ⟨none, none, none, none⟩ 0 false).store = [] :=
  C5_not_found [] 7 ⟨none, none, none, none⟩ 0 false rfl

/-- C6: round-trip — after a successful create, a show with the id of the
returned record answers 200 and its body is the very same record object
that create returned. -/
theorem C6_round_trip (s : Store) (r : RawCreate) (now : Nat) (pd : PhotoCreate)
    (hdec : decodeCreate r = some pd) :
    ∃ p, (create s r now false).body = some p ∧
      (show' (create s r now false).store (p.id : Int)).status = 200 ∧
      (show' (create s r now false).store (p.id : Int)).body
        = (create s r now false).body := by
  unfold create
  simp only [hdec, Bool.false_eq_true, if_false]
  refine ⟨⟨nextId s, pd.name, pd.url, pd.width, pd.height, now, now⟩, by trivial, ?_, ?_⟩ <;>
    unfold show' <;>
    rw [findPhoto_append_nextId s ⟨nextId s, pd.name, pd.url, pd.width, pd.height, now, now⟩ rfl]

/-- Witness for C6_round_trip at a concrete payload. -/
theorem C6_round_trip_witness :
    ∃ p, (create [] ⟨some "B", some "v", none, none⟩ 4 false).body = some p ∧
      (show' (create [] ⟨some "B", some "v", none, none⟩ 4 false).store (p.id : Int)).status
        = 200 ∧
      (show' (create [] ⟨some "B", some "v", none, none⟩ 4 false).store (p.id : Int)).body
        = (create [] ⟨some "B", some "v", none, none⟩ 4 false).body :=
  C6_round_trip [] ⟨some "B", some "v", none, none⟩ 4 ⟨"B", "v", none, none⟩ rfl

/-- C7: bootstrap seeding inserts exactly the two sample records ("Mountain
Lake" then "City Skyline", both with the fixed placeholder URL and
dimensions 400×300, ids 1 and 2) precisely when the store holds zero
records, leaves a non-empty store untouched, is idempotent (a second run
never adds further seed records), and listing right after seeding an
initially empty store returns exactly the two seed records. -/
theorem C7_seed_bootstrap (s : Store) (now nowLater : Nat) :
    (s = [] →
      seed_data s now
        = [⟨1, "Mountain Lake", placeholderUrl, some 400, some 300, now, now⟩,
           ⟨2, "City Skyline", placeholderUrl, some 400, some 300, now, now⟩] ∧
      (index (seed_data s now)).1
        = [⟨1, "Mountain Lake", placeholderUrl, some 400, some 300, now, now⟩,
           ⟨2, "City Skyline", placeholderUrl, some 400, some 300, now, now⟩]) ∧
    (s ≠ [] → seed_data s now = s) ∧
    seed_data (seed_data s now) nowLater = seed_data s now := by
  refine ⟨?_, ?_, ?_⟩
  · intro hs
    subst hs
    exact ⟨rfl, rfl⟩
  · intro hs
    rw [seed_data, if_neg (by simpa using hs)]
  · by_cases hs : s = []
    · subst hs
      rfl
    · have h1 : seed_data s now = s := by rw [seed_data, if_neg (by simpa using hs)]
      rw [h1, seed_data, if_neg (by simpa using hs)]

/-- Witness for C7_seed_bootstrap: seeding the empty store at clock 5, then
again at clock 9. -/
theorem C7_seed_bootstrap_witness :
    seed_data [] 5
      = [⟨1, "Mountain Lake", placeholderUrl, some 400, some 300, 5, 5⟩,
         ⟨2, "City Skyline", placeholderUrl, some 400, some 300, 5, 5⟩] ∧
    seed_data (seed_data [] 5) 9 = seed_data [] 5 :=
  ⟨((C7_seed_bootstrap [] 5 9).1 rfl).1, (C7_seed_bootstrap [] 5 9).2.2⟩

/-- C8 counterexample: a create whose commit raises (here a valid payload
with a failing store commit) propagates the exception before the
`db.close()` line is reached, so the session it opened is not released —
refuting "released on every exit path, including a failing store commit". -/
theorem C8_counterexample :
    (create [] ⟨some "A", some "u", none, none⟩ 0 true).released = false :=
  rfl

/-- C8 (amended): list and show close their session on every exit path
(including not-found); create and update close theirs on every exit path
except a raised commit error: for both, the session is released exactly
when the outcome is not a 500 commit/constraint failure (a
validation-rejected create never opens a session at all, and a not-found
update closes its session before raising the 404). -/
theorem C8_session_release (s : Store) (i : Int) (u : PhotoUpdate) (r : RawCreate)
    (now : Nat) (cf : Bool) :
    (show' s i).released = true ∧
    (index s).2 = true ∧
    ((create s r now cf).released = true ↔ (create s r now cf).status ≠ 500) ∧
    ((update s i u now cf).released = true ↔ (update s i u now cf).status ≠ 500) := by
  refine ⟨?_, rfl, ?_, ?_⟩
  · unfold show'
    rcases hf : findPhoto s i with _ | p <;> simp
  · unfold create
    rcases hd : decodeCreate r with _ | pd <;> simp only [hd]
    · simp
    · cases cf <;> simp
  · unfold update
    rcases hf : findPhoto s i with _ | p <;> simp only [hf]
    · simp
    · rcases hn : newName p u with _ | n <;> rcases hu : newUrl p u with _ | v <;>
        simp only [hn, hu]
      · simp
      · simp
      · simp
      · cases cf <;> simp

/-- C9: in an update payload an explicit null is a value to assign, not
absence.  PATCH with width explicitly null on an existing record succeeds
and stores width = NULL (other fields untouched); an explicit null for
`name` (or `url`) passes validation (no 422) and is assigned, whereupon
the store's NOT NULL constraint makes the commit fail (500, not a 404 and
not a skip), leaving the store unchanged. -/
theorem C9_explicit_null_assigned (s : Store) (i : Int) (p : Photo) (now : Nat)
    (hfind : findPhoto s i = some p) :
    (update s i ⟨none, none, some none, none⟩ now false).status = 200 ∧
    (∃ p', (update s i ⟨none, none, some none, none⟩ now false).body = some p' ∧
      p'.width = none ∧ p'.name = p.name ∧ p'.url = p.url ∧ p'.height = p.height) ∧
    (update s i ⟨some none, none, none, none⟩ now false).status = 500 ∧
    (update s i ⟨some none, none, none, none⟩ now false).status ≠ 422 ∧
    (update s i ⟨some none, none, none, none⟩ now false).status ≠ 404 ∧
    (update s i ⟨some none, none, none, none⟩ now false).store = s ∧
    (update s i ⟨none, some none, none, none⟩ now false).status = 500 ∧
    (update s i ⟨none, some none, none, none⟩ now false).store = s := by
  have hn1 : newName p ⟨none, none, some none, none⟩ = some p.name := rfl
  have hu1 : newUrl p ⟨none, none, some none, none⟩ = some p.url := rfl
  have hn2 : newName p ⟨some none, none, none, none⟩ = none := rfl
  have hu2 : newUrl p ⟨some none, none, none, none⟩ = some p.url := rfl
  have hn3 : newName p ⟨none, some none, none, none⟩ = some p.name := rfl
  have hu3 : newUrl p ⟨none, some none, none, none⟩ = none := rfl
  unfold update
  simp only [hfind, hn1, hu1, hn2, hu2, hn3, hu3, Bool.false_eq_true, if_false]
  refine ⟨by trivial,
    ⟨⟨p.id, p.name, p.url, none, p.height, p.created_at,
        if updDiffers p ⟨none, none, some none, none⟩ then now else p.updated_at⟩,
      by trivial, by trivial, by trivial, by trivial, by trivial⟩,
    by trivial, by decide, by decide, by trivial, by trivial, by trivial⟩

/-- Witness for C9_explicit_null_assigned: a one-record store, id 1. -/
theorem C9_explicit_null_assigned_witness :
    (update [Photo.mk 1 "A" "u" (some 3) none 0 0] 1 ⟨none, none, some none, none⟩ 5
      false).status = 200 :=
  (C9_explicit_null_assigned [Photo.mk 1 "A" "u" (some 3) none 0 0] 1
    (Photo.mk 1 "A" "u" (some 3) none 0 0) 5 rfl).1

/-- C10: a GET or PATCH on /photos/{id} whose path segment does not parse
as an integer is answered 422 by the routing layer's validation of the
`id: int` parameter; the handler never runs, so no record is returned and
the store is never consulted, let alone changed. -/
theorem C10_unparseable_path_id (s : Store) (seg : String) (u : PhotoUpdate) (now : Nat)
    (cf : Bool) (h : parsePathInt seg = none) :
    (showRoute s seg).status = 422 ∧ (showRoute s seg).status ≠ 404 ∧
    (showRoute s seg).store = s ∧ (showRoute s seg).body = none ∧
    (updateRoute s seg u now cf).status = 422 ∧
    (updateRoute s seg u now cf).status ≠ 404 ∧
    (updateRoute s seg u now cf).store = s ∧
    (updateRoute s seg u now cf).body = none := by
  unfold showRoute updateRoute
  simp only [h]
  exact ⟨by trivial, by decide, by trivial, by trivial, by trivial, by decide,
    by trivial, by trivial⟩

/-- Witness for C10_unparseable_path_id: the path segment "abc". -/
theorem C10_unparseable_path_id_witness :
    (showRoute [] "abc").status = 422 ∧ (showRoute [] "abc").status ≠ 404 ∧
    (showRoute [] "abc").store = [] ∧ (showRoute [] "abc").body = none ∧
    (updateRoute [] "abc" ⟨none, none, none, none⟩ 0 false).status = 422 ∧
    (updateRoute [] "abc" ⟨none, none, none, none⟩ 0 false).status ≠ 404 ∧
    (updateRoute [] "abc" ⟨none, none, none, none⟩ 0 false).store = [] ∧
    (updateRoute [] "abc" ⟨none, none, none, none⟩ 0 false).body = none :=
  C10_unparseable_path_id [] "abc" ⟨none, none, none, none⟩ 0 false (by decide)
